import Mathlib

/-!
# Verification of the xiao-asgi repository against its specification

Shallow embedding of `xiao_asgi` (a minimal ASGI framework): the
response-rendering pipeline (`responses.py`), connection state machines
(`connections.py`), route dispatch (`routing.py`) and the application
entry point (`applications.py`), together with theorems settling the
spec's claims about them.

Python `str` values are modelled as lists of Unicode code points and
Python `bytes` values as lists of byte values; both are `List Nat`.
Fallible Python code (exceptions) is modelled with `Except Err`.
-/

namespace XiaoAsgi

/-- A Python `str`: its sequence of Unicode code points. -/
abbrev PyStr := List Nat

/-- A Python `bytes`: its sequence of byte values (each < 256). -/
abbrev PyBytes := List Nat

/-- Code points of a Lean string literal, for writing concrete Python
`str`/`bytes` values (ASCII literals denote the same list in both roles). -/
def pyOf (s : String) : List Nat := s.toList.map Char.toNat

/-- The exceptions raised by the embedded code, with their messages
(as Python strings, i.e. code-point lists). -/
inductive Err where
  | protocolUnknown : Err
  | protocolMismatch (msg : PyStr) : Err
  | typeMismatch (msg : PyStr) : Err
  | invalidConnectionState (msg : PyStr) : Err
  | valueError (msg : PyStr) : Err
  | attributeError (msg : PyStr) : Err
  | unicodeEncodeError : Err
  | lookupError : Err
  | exception (msg : PyStr) : Err
  deriving DecidableEq, Repr

instance {ε α : Type _} [DecidableEq ε] [DecidableEq α] :
    DecidableEq (Except ε α) := fun x y =>
  match x, y with
  | .ok a, .ok b =>
      if h : a = b then .isTrue (congrArg Except.ok h)
      else .isFalse (fun he => h (Except.ok.inj he))
  | .error a, .error b =>
      if h : a = b then .isTrue (congrArg Except.error h)
      else .isFalse (fun he => h (Except.error.inj he))
  | .ok _, .error _ => .isFalse (fun he => Except.noConfusion he)
  | .error _, .ok _ => .isFalse (fun he => Except.noConfusion he)

/-- Python `str.lower` restricted to the Latin-1 range (ASCII A–Z and the
Latin-1 uppercase letters À–Þ except ×, each mapping one code point down by
32); code points outside this range are returned unchanged. Header names in
the code are Latin-1-encodable, where this agrees with Python. -/
def pyLowerChar (c : Nat) : Nat :=
  if 65 ≤ c ∧ c ≤ 90 then c + 32
  else if 0xC0 ≤ c ∧ c ≤ 0xD6 then c + 32
  else if 0xD8 ≤ c ∧ c ≤ 0xDE then c + 32
  else c

/-- Python `str.lower` on a whole string (see `pyLowerChar`). -/
def pyLower (s : PyStr) : PyStr := s.map pyLowerChar

/-- Python `str.encode("latin-1")`: the identity on code points below 256,
a `UnicodeEncodeError` otherwise. -/
def encodeLatin1 (s : PyStr) : Except Err PyBytes :=
  if s.all (· < 256) then .ok s else .error .unicodeEncodeError

/-- UTF-8 encoding of one code point. -/
def utf8EncodeChar (c : Nat) : List Nat :=
  if c < 0x80 then [c]
  else if c < 0x800 then [0xC0 + c / 64, 0x80 + c % 64]
  else if c < 0x10000 then
    [0xE0 + c / 4096, 0x80 + (c / 64) % 64, 0x80 + c % 64]
  else
    [0xF0 + c / 262144, 0x80 + (c / 4096) % 64, 0x80 + (c / 64) % 64,
      0x80 + c % 64]

/-- Python `str.encode(charset)` for the charsets the code uses: `"utf-8"`
and `"latin-1"`; any other codec name is a `LookupError`. -/
def encodeCharset (charset : PyStr) (s : PyStr) : Except Err PyBytes :=
  if charset = pyOf "utf-8" then .ok (s.flatMap utf8EncodeChar)
  else if charset = pyOf "latin-1" then encodeLatin1 s
  else .error .lookupError

/-- A Python `Union[str, bytes]` response body (`Response.body`). -/
inductive PyBody where
  | str (s : PyStr) : PyBody
  | bytes (b : PyBytes) : PyBody
  deriving DecidableEq, Repr

/-- Python `len` on a `Union[str, bytes]` value: the number of code points
of a `str`, the number of bytes of a `bytes`. -/
def pyLen : PyBody → Nat
  | .str s => s.length
  | .bytes b => b.length

/-- Python `str(n)` for a natural number, as code points. -/
def pyStrOfNat (n : Nat) : PyStr := pyOf (toString n)

/-- Embeds a `TextResponse` object (responses.py): `status`, `headers`
(a dict in insertion order), `body` from the `Response` base class,
`charset` from `TextResponse.__init__`, and `media_type`, the class
attribute fixed by the concrete subclass (`"text/plain"` for
`PlainTextResponse`, `"text/html"` for `HtmlResponse`). -/
structure TextResponse where
  media_type : PyStr
  status : Nat := 200
  headers : List (PyStr × PyStr) := []
  body : PyBody := .bytes []
  charset : PyStr := pyOf "utf-8"
  deriving DecidableEq, Repr

/-- A `PlainTextResponse(status=..., headers=..., body=...)`
(responses.py lines 149-162): `media_type` is `"text/plain"`,
`charset` defaults to `"utf-8"`. -/
def plainTextResponse (status : Nat) (headers : List (PyStr × PyStr))
    (body : PyBody) : TextResponse :=
  { media_type := pyOf "text/plain", status := status, headers := headers,
    body := body }

/-- One entry of the comprehension in `Response.render_headers`
(responses.py lines 63-66): `(header.lower().encode("latin-1"),
value.encode("latin-1"))`. -/
def renderPair (kv : PyStr × PyStr) : Except Err (PyBytes × PyBytes) :=
  match encodeLatin1 (pyLower kv.1) with
  | .error e => .error e
  | .ok k =>
      match encodeLatin1 kv.2 with
      | .error e => .error e
      | .ok v => .ok (k, v)

/-- The whole comprehension of `Response.render_headers`: the caller's
headers rendered in insertion order. -/
def renderPairs : List (PyStr × PyStr) → Except Err (List (PyBytes × PyBytes))
  | [] => .ok []
  | kv :: rest =>
      match renderPair kv with
      | .error e => .error e
      | .ok p =>
          match renderPairs rest with
          | .error e => .error e
          | .ok ps => .ok (p :: ps)

/-- Embeds `Response.render_headers` (responses.py lines 57-77): the
rendered caller headers, then a `content-length` header computed as
`str(len(self.body))` (note: `len` of the *unrendered* body), then a
`content-type` header from `media_type`. -/
def baseRenderHeaders (r : TextResponse) :
    Except Err (List (PyBytes × PyBytes)) :=
  match renderPairs r.headers with
  | .error e => .error e
  | .ok rendered =>
      match encodeLatin1 (pyStrOfNat (pyLen r.body)) with
      | .error e => .error e
      | .ok clen =>
          match encodeLatin1 r.media_type with
          | .error e => .error e
          | .ok ctype =>
              .ok (rendered ++
                [(pyOf "content-length", clen), (pyOf "content-type", ctype)])

/-- The loop of `TextResponse.render_headers` (responses.py lines 138-144):
append `"; charset=" + charset` to the value of the first header named
`content-type`, leaving every other entry unchanged (the loop `break`s
after the first hit). -/
def addCharsetToFirstContentType (cs : PyBytes) :
    List (PyBytes × PyBytes) → List (PyBytes × PyBytes)
  | [] => []
  | (k, v) :: rest =>
      if k = pyOf "content-type" then
        (k, v ++ pyOf "; charset=" ++ cs) :: rest
      else
        (k, v) :: addCharsetToFirstContentType cs rest

/-- Embeds `TextResponse.render_headers` (responses.py lines 126-146):
the base headers with the charset statement added to the first
`content-type` entry. -/
def renderHeaders (r : TextResponse) :
    Except Err (List (PyBytes × PyBytes)) :=
  match baseRenderHeaders r with
  | .error e => .error e
  | .ok hs =>
      match encodeLatin1 r.charset with
      | .error e => .error e
      | .ok cs => .ok (addCharsetToFirstContentType cs hs)

/-- `TextResponse.render_headers` as a state-passing method call: the
method reads `self.headers`, `self.body`, `self.media_type` and
`self.charset` and assigns no attribute of `self` (it mutates only the
local `rendered_headers` list), so the object is returned unchanged. -/
def renderHeadersM (r : TextResponse) :
    Except Err (List (PyBytes × PyBytes)) × TextResponse :=
  (renderHeaders r, r)

/-- Embeds `TextResponse.render_body` (responses.py lines 114-124):
a `bytes` body passes through unchanged, a `str` body is encoded with
`self.charset`. -/
def renderBody (r : TextResponse) : Except Err PyBytes :=
  match r.body with
  | .bytes b => .ok b
  | .str s => encodeCharset r.charset s

/-! ## Connections (connections.py) -/

/-- Python `s.split(sep)` for a one-character separator: split at every
occurrence, keeping empty pieces (`"".split(".") == [""]`). -/
def pySplit (sep : Nat) : List Nat → List (List Nat)
  | [] => [[]]
  | c :: rest =>
      match pySplit sep rest with
      | [] => [[]]
      | h :: t => if c = sep then [] :: h :: t else (c :: h) :: t

/-- Python `type.split(".")`: split a message type string at every
`'.'` (code point 46). -/
def pySplitDot (s : PyStr) : List PyStr := pySplit 46 s

/-- A Python value occurring as a field of an ASGI message
(request/response payload fields such as `body`, `more_body`, `text`). -/
inductive PyVal where
  | bytes (b : PyBytes) : PyVal
  | str (s : PyStr) : PyVal
  | bool (b : Bool) : PyVal
  | int (n : Int) : PyVal
  | none : PyVal
  deriving DecidableEq, Repr

/-- An ASGI message delivered by the transport's receive primitive: a dict
with a `"type"` string plus the remaining fields (`fields` holds every key
other than `"type"`, in order, so `del request["type"]` leaves exactly
`fields`). -/
structure Message where
  type : PyStr
  fields : List (PyStr × PyVal)
  deriving DecidableEq, Repr

/-- Embeds the `Request` dataclass (requests.py lines 10-27). -/
structure Request where
  data : List (PyStr × PyVal)
  protocol : PyStr
  type : PyStr
  deriving DecidableEq, Repr

/-- Messages sent to the transport by the code the claims cover, tagged by
their constructors; `typeStr` below recovers the ASGI `type` string. -/
inductive OutMsg where
  | start (status : Nat) (headers : List (PyBytes × PyBytes)) : OutMsg
  | body (body : PyBytes) (more_body : Bool) : OutMsg
  | wsAccept (subprotocol : Option String)
      (headers : List (PyBytes × PyBytes)) : OutMsg
  | wsSend (bytes : Option PyBytes) (text : Option String) : OutMsg
  | wsClose (code : Int) : OutMsg
  deriving DecidableEq, Repr

/-- The ASGI `type` string of an outbound message. -/
def OutMsg.typeStr : OutMsg → PyStr
  | .start _ _ => pyOf "http.response.start"
  | .body _ _ => pyOf "http.response.body"
  | .wsAccept _ _ => pyOf "websocket.accept"
  | .wsSend _ _ => pyOf "websocket.send"
  | .wsClose _ => pyOf "websocket.close"

/-- The protocol of a message type string: `type.split(".")[0]`, the text
before the first `'.'`. -/
def protoOf (ty : PyStr) : PyStr := (pySplitDot ty).headD []

/-- Embeds the validation of `Connection.send` (connections.py lines
151-171): the outbound message's protocol must equal the connection's
protocol, else `ProtocolMismatch`. -/
def connSend (protocol : PyStr) (m : OutMsg) : Except Err OutMsg :=
  if protoOf m.typeStr ≠ protocol then
    .error (.protocolMismatch (pyOf "Response protocol (" ++
      protoOf m.typeStr ++
      pyOf ") does not match this connection protocol (" ++ protocol ++
      pyOf ")."))
  else .ok m

/-- Embeds `Connection.__init__` (connections.py lines 102-120). The
type-mismatch branch evaluates
`ValueError(f"The type of the connection must be ...")` but has no
`raise`, so the exception object is discarded and construction always
succeeds; the returned value records the scope's declared type. -/
def connInit (protocol : PyStr) (scopeType : PyStr) :
    Except Err PyStr :=
  -- `if scope["type"] != self.protocol:` constructs the ValueError and
  -- drops it; both branches fall through to the attribute assignments.
  let _unusedValueError :=
    Err.valueError (pyOf "The type of the connection must be " ++ protocol ++
      pyOf ", not " ++ scopeType ++ pyOf ".")
  .ok scopeType

/-- Modelled from the spec: the base `Connection.receive()` method is
missing from the source (`HttpConnection.receive_request` calls
`self.receive()`, which no class defines; the repository's unit test
`test_receive_request_with_required_type` exercises it). Spec §4.1:
"`receive()` pulls one message from the underlying primitive and
validates that the message's protocol prefix (text before the first '.')
equals this connection's protocol; mismatch fails with `ProtocolMismatch`
naming both protocols." The transport's pending messages are the list
`msgs`; `none` means the primitive would suspend (no pending message). -/
def connReceive (protocol : PyStr) (msgs : List Message) :
    Option (Except Err Message × List Message) :=
  match msgs with
  | [] => none
  | m :: rest =>
      if protoOf m.type ≠ protocol then
        some (.error (.protocolMismatch (pyOf "Request protocol (" ++
          protoOf m.type ++
          pyOf ") does not match this connection protocol (" ++
          protocol ++ pyOf ").")), rest)
      else some (.ok m, rest)

/-- Embeds `HttpConnection.receive_request` (connections.py lines 222-244)
on top of the spec-modelled `connReceive`: receive one message, unpack
`protocol, type = request["type"].split(".")` (a list of any length other
than two fails the tuple unpacking with `ValueError`), require
`type == "request"` else `TypeMismatch`, then delete the type field and
return the `Request`. -/
def httpReceiveRequest (msgs : List Message) :
    Option (Except Err Request × List Message) :=
  match connReceive (pyOf "http") msgs with
  | Option.none => none
  | some (.error e, rest) => some (.error e, rest)
  | some (.ok m, rest) =>
      match pySplitDot m.type with
      | [protocol, ty] =>
          if ty ≠ pyOf "request" then
            some (.error (.typeMismatch (pyOf "Request type (" ++ ty ++
              pyOf ") does not match the expected type (request).")), rest)
          else some (.ok ⟨m.fields, protocol, ty⟩, rest)
      | _ =>
          some (.error (.valueError
            (pyOf "values to unpack (expected 2)")), rest)

/-- Whether a `receive_request` outcome is a raised `TypeMismatch`. -/
def raisesTypeMismatch : Option (Except Err Request × List Message) → Bool
  | some (.error (.typeMismatch _), _) => true
  | _ => false

/-- The mutable state of a `WebSocketConnection`: its `connection_state`
string, set to `"connecting"` by `__init__` (connections.py lines
290-294). -/
structure WsConn where
  connection_state : String
  deriving DecidableEq, Repr

/-- A freshly constructed `WebSocketConnection`. -/
def wsInit : WsConn := ⟨"connecting"⟩

/-- Embeds `WebSocketConnection.receive_request` (connections.py lines
331-355): raise `InvalidConnectionState` when `connection_state` is
`"disconnected"` (before touching the receive primitive, so the message
list is returned untouched); otherwise pull one message directly from
`self._receive` (no protocol validation), unpack
`protocol, type = request["type"].split(".")`, move the state to
`"connected"` on type `"connect"`, to `"disconnected"` on
`"disconnect"`, and leave it unchanged otherwise, then delete the type
field and return the `Request`. -/
def wsReceiveRequest (c : WsConn) (msgs : List Message) :
    Option (Except Err Request × WsConn × List Message) :=
  if c.connection_state = "disconnected" then
    some (.error (.invalidConnectionState
      (pyOf "Cannot receive a request from a disconnected connection.")),
      c, msgs)
  else
    match msgs with
    | [] => none
    | m :: rest =>
        match pySplitDot m.type with
        | [protocol, ty] =>
            let st :=
              if ty = pyOf "connect" then "connected"
              else if ty = pyOf "disconnect" then "disconnected"
              else c.connection_state
            some (.ok ⟨m.fields, protocol, ty⟩, ⟨st⟩, rest)
        | _ =>
            some (.error (.valueError
              (pyOf "values to unpack (expected 2)")), c, rest)

/-- Embeds `WebSocketConnection.accept_connection` (connections.py lines
296-318): send the `websocket.accept` message, then set
`connection_state` to `"accepted"`. -/
def wsAcceptConnection (_c : WsConn) (subprotocol : Option String)
    (headers : List (PyBytes × PyBytes)) : OutMsg × WsConn :=
  (.wsAccept subprotocol headers, ⟨"accepted"⟩)

/-- Embeds `WebSocketConnection.close_connection` (connections.py lines
320-329): send the `websocket.close` message, then set
`connection_state` to `"closed"`. -/
def wsCloseConnection (_c : WsConn) (code : Int) : OutMsg × WsConn :=
  (.wsClose code, ⟨"closed"⟩)

/-- The operations that assign `WebSocketConnection.connection_state`. -/
inductive WsOp where
  | receiveReq : WsOp
  | accept (subprotocol : Option String)
      (headers : List (PyBytes × PyBytes)) : WsOp
  | close (code : Int) : WsOp

/-- One operation applied to a WebSocket connection's state (the sent or
returned values are discarded; a suspended receive leaves everything
unchanged). -/
def wsStep (cm : WsConn × List Message) (op : WsOp) : WsConn × List Message :=
  match op with
  | .receiveReq =>
      match wsReceiveRequest cm.1 cm.2 with
      | some (_, c', rest) => (c', rest)
      | Option.none => cm
  | .accept sub hs => ((wsAcceptConnection cm.1 sub hs).2, cm.2)
  | .close code => ((wsCloseConnection cm.1 code).2, cm.2)

/-- A sequence of operations run on a WebSocket connection. -/
def wsRun (cm : WsConn × List Message) (ops : List WsOp) :
    WsConn × List Message :=
  ops.foldl wsStep cm

/-! ## Responses as message sequences, routes and the application
(responses.py, routing.py, applications.py) -/

/-- Modelled from the spec: `render_messages` is absent from the source
`Response` family (responses.py defines only `render_headers`,
`render_body` and `render_response`, yet `HttpConnection.send_response`
iterates `response.render_messages()`). Spec §3/§4.2: "every rendered
HTTP response begins with exactly one 'start' message (status + headers)
followed by one or more 'body' messages; the final body message has its
continuation flag false"; for a non-streamed text response this is the
start message then one final body message, with headers and body from the
rendering pipeline. -/
def renderMessages (r : TextResponse) : Except Err (List OutMsg) :=
  match renderHeaders r with
  | .error e => .error e
  | .ok hs =>
      match renderBody r with
      | .error e => .error e
      | .ok b => .ok [.start r.status hs, .body b false]

/-- Sending a list of rendered messages one by one through
`Connection.send` (connections.py lines 151-171): each message is
validated against the connection's protocol before being handed to the
transport. -/
def sendAll (protocol : PyStr) : List OutMsg → Except Err (List OutMsg)
  | [] => .ok []
  | m :: rest =>
      match connSend protocol m with
      | .error e => .error e
      | .ok m' =>
          match sendAll protocol rest with
          | .error e => .error e
          | .ok ms => .ok (m' :: ms)

/-- Embeds `HttpConnection.send_response` (connections.py lines 246-253):
send each rendered message through `Connection.send` (which validates the
protocol). Returns the messages handed to the transport. -/
def httpSendResponse (r : TextResponse) : Except Err (List OutMsg) :=
  match renderMessages r with
  | .error e => .error e
  | .ok ms => sendAll (pyOf "http") ms

/-- Modelled from the spec: `BodyResponse` is absent from the source
responses.py (routing.py imports it for the 405/500/501 responses).
Spec §4.2: "`BodyResponse(status, headers, body)`: [start{status,
headers}, body{content=body, more_body=false}]" — the headers are passed
through verbatim, no header pipeline. -/
def bodyResponseMessages (status : Nat)
    (headers : List (PyBytes × PyBytes)) (body : PyBytes) : List OutMsg :=
  [.start status headers, .body body false]

/-- `HttpConnection.send_response` applied to a spec-modelled
`BodyResponse`: each of its two messages passes the `Connection.send`
protocol validation. -/
def httpSendBodyResponse (status : Nat)
    (headers : List (PyBytes × PyBytes)) (body : PyBytes) :
    Except Err (List OutMsg) :=
  sendAll (pyOf "http") (bodyResponseMessages status headers body)

/-- Modelled from the spec: the WebSocket response variants
(`AcceptResponse`, `MessageResponse`, `CloseResponse`) are absent from
the source responses.py (routing.py imports `AcceptResponse` and
`CloseResponse`). Spec §4.2: each renders to exactly one message:
accept{subprotocol, headers}, send{bytes, text}, close{code}. -/
inductive WsResponse where
  | accept (subprotocol : Option String)
      (headers : List (PyBytes × PyBytes)) : WsResponse
  | message (bytes : Option PyBytes) (text : Option String) : WsResponse
  | close (code : Int) : WsResponse

/-- The single rendered message of a WebSocket response (spec §4.2). -/
def wsRenderMessage : WsResponse → OutMsg
  | .accept sub hs => .wsAccept sub hs
  | .message b t => .wsSend b t
  | .close code => .wsClose code

/-- Modelled from the spec: `WebSocketConnection.send_response` is absent
from the source (`WebSocketRoute` calls it; the base class declares no
such method). Spec §4.1: "renders and sends the response's single
message, with state transitions appropriate to the rendered message type
(accept → connected; close → disconnected)". -/
def wsSendResponse (c : WsConn) (r : WsResponse) : OutMsg × WsConn :=
  (wsRenderMessage r,
    match r with
    | .accept _ _ => ⟨"connected"⟩
    | .message _ _ => c
    | .close _ => ⟨"disconnected"⟩)

/-- Embeds `HttpRoute.__call__` (routing.py lines 233-260), with the
endpoint abstracted by its observable behaviour (`endpointSends`: the
messages it sends, `endpointRaise`: the exception it raises, if any):
(1) `Route.__call__` checks the connection's protocol against the
route's; (2) `get_endpoint(connection.method.lower())`, an attribute
lookup whose success is the `resolved` flag — on failure send a 501
`BodyResponse` and re-raise; (3) receive one request via
`receive_request` and run the endpoint — if either raises, send a 500
`BodyResponse(status=500, body=b"Internal Server Error")` and re-raise.
Result: the messages sent, the exception propagated (if any), and the
remaining transport messages; `none` when the receive suspends. -/
def httpRouteCall (connProtocol : PyStr) (resolved : Bool)
    (msgs : List Message) (endpointSends : List OutMsg)
    (endpointRaise : Option Err) :
    Option (List OutMsg × Option Err × List Message) :=
  if connProtocol ≠ pyOf "http" then
    some ([], some (.protocolMismatch []), msgs)
  else if ¬ resolved then
    match httpSendBodyResponse 501 [] (pyOf "Not Implemented") with
    | .ok ms => some (ms, some (.attributeError (pyOf "get_endpoint")), msgs)
    | .error e => some ([], some e, msgs)
  else
    match httpReceiveRequest msgs with
    | Option.none => none
    | some (.error e, rest) =>
        match httpSendBodyResponse 500 [] (pyOf "Internal Server Error") with
        | .ok ms => some (ms, some e, rest)
        | .error e2 => some ([], some e2, rest)
    | some (.ok _, rest) =>
        match endpointRaise with
        | some e =>
            match httpSendBodyResponse 500 []
                (pyOf "Internal Server Error") with
            | .ok ms => some (endpointSends ++ ms, some e, rest)
            | .error e2 => some (endpointSends, some e2, rest)
        | Option.none => some (endpointSends, none, rest)

/-- Embeds `WebSocketRoute.__call__` (routing.py lines 327-349), with the
endpoint abstracted as in `httpRouteCall` and endpoint resolution by the
request's type abstracted by the predicate `resolvedFor`:
(1) the protocol check of `Route.__call__`; (2) inside one `try`: receive
a request via `receive_request`, resolve the endpoint by `request.type`,
run it; on any exception send `CloseResponse(code=1011)` through
`send_response` and re-raise. Result: the messages sent, the exception
propagated (if any), the connection state and the remaining transport
messages; `none` when the receive suspends. -/
def wsRouteCall (connProtocol : PyStr) (resolvedFor : PyStr → Bool)
    (c : WsConn) (msgs : List Message) (endpointSends : List OutMsg)
    (endpointRaise : Option Err) :
    Option (List OutMsg × Option Err × WsConn × List Message) :=
  if connProtocol ≠ pyOf "websocket" then
    some ([], some (.protocolMismatch []), c, msgs)
  else
    match wsReceiveRequest c msgs with
    | Option.none => none
    | some (.error e, c', rest) =>
        let (sent, c'') := wsSendResponse c' (.close 1011)
        some ([sent], some e, c'', rest)
    | some (.ok req, c', rest) =>
        if ¬ resolvedFor req.type then
          let (sent, c'') := wsSendResponse c' (.close 1011)
          some ([sent], some (.attributeError (pyOf "get_endpoint")), c'',
            rest)
        else
          match endpointRaise with
          | some e =>
              let (sent, c'') := wsSendResponse c' (.close 1011)
              some (endpointSends ++ [sent], some e, c'', rest)
          | Option.none => some (endpointSends, none, c', rest)

/-- A route as the application sees it: its path and the observable
behaviour of invoking it (the messages it sends and whether it raises —
`Xiao.__call__` logs and swallows any exception, so the behaviour beyond
the sent messages does not reach the transport). -/
structure AppRoute where
  path : String
  sends : List OutMsg
  raises : Option Err

/-- Modelled from the spec: route path matching — the source
`Xiao.__call__` reads `route.path_regex`, which the source `Route` never
defines (it stores only `path`; spec §1 excludes "path-pattern
compilation" as an external collaborator). Spec §4.4: scan "for the
first whose path equals (or whose compiled pattern matches) the
connection's URL path"; modelled as path equality. -/
def pathMatches (routePath scopePath : String) : Bool :=
  routePath = scopePath

/-- The `for route in self._routes` loop of `Xiao.__call__`: the first
route whose path matches, with its index. -/
def findRoute (scopePath : String) :
    List AppRoute → Nat → Option (Nat × AppRoute)
  | [], _ => none
  | r :: rest, i =>
      if pathMatches r.path scopePath then some (i, r)
      else findRoute scopePath rest (i + 1)

/-- Embeds `Xiao.__call__` (applications.py lines 45-78) for an HTTP
scope: build the connection, scan the routes for the first path match —
if one matches, invoke it (exceptions are logged and swallowed; the
`finally: return` stops the scan) — otherwise send
`PlainTextResponse(status=404, body=b"Not Found")`. Returns the
messages sent by the application itself together with the indices of the
routes invoked (empty when no route endpoint ran). -/
def xiaoCall (routes : List AppRoute) (scopePath : String) :
    Except Err (List OutMsg × List Nat) :=
  match findRoute scopePath routes 0 with
  | some (i, r) => .ok (r.sends, [i])
  | Option.none =>
      match httpSendResponse
          (plainTextResponse 404 [] (.bytes (pyOf "Not Found"))) with
      | .error e => .error e
      | .ok ms => .ok (ms, [])

/-! ## Theorems settling the claims -/


theorem encodeLatin1_ok {s b : PyStr} (h : encodeLatin1 s = .ok b) : b = s := by
  unfold encodeLatin1 at h
  split at h
  · exact (Except.ok.inj h).symm
  · exact absurd h (by simp)

theorem renderPair_ok {kv : PyStr × PyStr} {p : PyBytes × PyBytes}
    (h : renderPair kv = .ok p) : p = (pyLower kv.1, kv.2) := by
  unfold renderPair at h
  cases h1 : encodeLatin1 (pyLower kv.1) with
  | error e => rw [h1] at h; exact absurd h (by simp)
  | ok k =>
      rw [h1] at h
      cases h2 : encodeLatin1 kv.2 with
      | error e => rw [h2] at h; exact absurd h (by simp)
      | ok v =>
          rw [h2] at h
          have := Except.ok.inj h
          rw [← this, encodeLatin1_ok h1, encodeLatin1_ok h2]

theorem renderPairs_ok_names {l : List (PyStr × PyStr)}
    {out : List (PyBytes × PyBytes)} (h : renderPairs l = .ok out) :
    out.map Prod.fst = l.map fun kv => pyLower kv.1 := by
  induction l generalizing out with
  | nil =>
      unfold renderPairs at h
      cases Except.ok.inj h
      rfl
  | cons kv rest ih =>
      unfold renderPairs at h
      cases h1 : renderPair kv with
      | error e => rw [h1] at h; exact absurd h (by simp)
      | ok p =>
          rw [h1] at h
          cases h2 : renderPairs rest with
          | error e => rw [h2] at h; exact absurd h (by simp)
          | ok ps =>
              rw [h2] at h
              cases Except.ok.inj h
              simp [renderPair_ok h1, ih h2]

theorem renderPairs_split {pre post : List (PyStr × PyStr)} {k v : PyStr}
    {out : List (PyBytes × PyBytes)}
    (h : renderPairs (pre ++ (k, v) :: post) = .ok out) :
    ∃ pre' post', out = pre' ++ (pyLower k, v) :: post' ∧
      renderPairs pre = .ok pre' ∧ renderPairs post = .ok post' ∧
      pre'.map Prod.fst = pre.map fun kv => pyLower kv.1 := by
  induction pre generalizing out with
  | nil =>
      rw [List.nil_append] at h
      unfold renderPairs at h
      cases h1 : renderPair (k, v) with
      | error e => rw [h1] at h; exact absurd h (by simp)
      | ok p =>
          rw [h1] at h
          cases h2 : renderPairs post with
          | error e => rw [h2] at h; exact absurd h (by simp)
          | ok ps =>
              rw [h2] at h
              cases Except.ok.inj h
              refine ⟨[], ps, ?_, ?_, ?_, ?_⟩
              · simp [renderPair_ok h1]
              · rfl
              · rfl
              · rfl
  | cons kv rest ih =>
      rw [List.cons_append] at h
      unfold renderPairs at h
      cases h1 : renderPair kv with
      | error e => rw [h1] at h; exact absurd h (by simp)
      | ok p =>
          rw [h1] at h
          cases h2 : renderPairs (rest ++ (k, v) :: post) with
          | error e => rw [h2] at h; exact absurd h (by simp)
          | ok ps =>
              rw [h2] at h
              cases Except.ok.inj h
              obtain ⟨pre', post', hps, hpre, hpost, hnames⟩ := ih h2
              refine ⟨p :: pre', post', by simp [hps], ?_, hpost, ?_⟩
              · unfold renderPairs
                rw [h1, hpre]
              · simp [renderPair_ok h1, hnames]

theorem addCharset_map_fst (cs : PyBytes) (l : List (PyBytes × PyBytes)) :
    (addCharsetToFirstContentType cs l).map Prod.fst = l.map Prod.fst := by
  induction l with
  | nil => rfl
  | cons kv rest ih =>
      obtain ⟨kk, vv⟩ := kv
      unfold addCharsetToFirstContentType
      split
      · simp_all
      · simpa using ih

theorem addCharset_first {cs : PyBytes} {pre post : List (PyBytes × PyBytes)}
    {v : PyBytes} (hpre : ∀ p ∈ pre, p.1 ≠ pyOf "content-type") :
    addCharsetToFirstContentType cs
        (pre ++ (pyOf "content-type", v) :: post) =
      pre ++ (pyOf "content-type", v ++ pyOf "; charset=" ++ cs) :: post := by
  induction pre with
  | nil =>
      unfold addCharsetToFirstContentType
      simp
  | cons kv rest ih =>
      obtain ⟨kk, vv⟩ := kv
      rw [List.cons_append]
      unfold addCharsetToFirstContentType
      rw [if_neg (hpre (kk, vv) (by simp))]
      rw [ih fun p hp => hpre p (by simp [hp])]
      simp


/-- Claim C8: the claim says the `content-length` header equals the byte
length of the rendered body; the code computes `str(len(self.body))` on the
unrendered body, so for the one-character body `"é"` (UTF-8: two bytes) it
renders `content-length: 1` while `render_body` returns two bytes. -/
theorem content_length_is_code_point_count :
    renderHeaders (plainTextResponse 200 [] (.str (pyOf "é"))) =
      .ok [(pyOf "content-length", pyOf "1"),
        (pyOf "content-type", pyOf "text/plain; charset=utf-8")] ∧
    renderBody (plainTextResponse 200 [] (.str (pyOf "é"))) =
      .ok [195, 169] ∧
    pyLen (PyBody.str (pyOf "é")) = 1 ∧
    ([195, 169] : List Nat).length = 2 := by
  decide

/-- Claim C9: header rendering is idempotent (a second call on the
unchanged object yields the same list), order-preserving (the output's
header names are the caller's names lower-cased in insertion order,
then content-length, then content-type), and on headers
{"Server": "S", "Etag": "E"} with body "abc" and media type text/plain
it yields exactly the four expected pairs. -/
theorem render_headers_idempotent_ordered :
    (∀ r : TextResponse,
      (renderHeadersM (renderHeadersM r).2).1 = (renderHeadersM r).1)
    ∧ (∀ (r : TextResponse) (hs : List (PyBytes × PyBytes)),
        renderHeaders r = .ok hs →
        ∃ mapped, renderPairs r.headers = .ok mapped ∧
          mapped.map Prod.fst = r.headers.map (fun kv => pyLower kv.1) ∧
          hs.map Prod.fst = mapped.map Prod.fst ++
            [pyOf "content-length", pyOf "content-type"])
    ∧ renderHeaders ⟨pyOf "text/plain", 200,
        [(pyOf "Server", pyOf "S"), (pyOf "Etag", pyOf "E")],
        .str (pyOf "abc"), pyOf "utf-8"⟩ =
      .ok [(pyOf "server", pyOf "S"), (pyOf "etag", pyOf "E"),
        (pyOf "content-length", pyOf "3"),
        (pyOf "content-type", pyOf "text/plain; charset=utf-8")] := by
  refine ⟨fun r => rfl, ?_, by decide⟩
  intro r hs h
  unfold renderHeaders at h
  cases hbase : baseRenderHeaders r with
  | error e => rw [hbase] at h; exact absurd h (by simp)
  | ok base =>
      rw [hbase] at h
      cases hcs : encodeLatin1 r.charset with
      | error e => rw [hcs] at h; exact absurd h (by simp)
      | ok cs =>
          rw [hcs] at h
          cases Except.ok.inj h
          unfold baseRenderHeaders at hbase
          cases hmapped : renderPairs r.headers with
          | error e => rw [hmapped] at hbase; exact absurd hbase (by simp)
          | ok mapped =>
              rw [hmapped] at hbase
              cases hclen : encodeLatin1 (pyStrOfNat (pyLen r.body)) with
              | error e => rw [hclen] at hbase; exact absurd hbase (by simp)
              | ok clen =>
                  rw [hclen] at hbase
                  cases hctype : encodeLatin1 r.media_type with
                  | error e =>
                      rw [hctype] at hbase; exact absurd hbase (by simp)
                  | ok ctype =>
                      rw [hctype] at hbase
                      cases Except.ok.inj hbase
                      refine ⟨mapped, rfl, renderPairs_ok_names hmapped, ?_⟩
                      rw [addCharset_map_fst]
                      simp

/-- Witness for the order-preservation part of
`render_headers_idempotent_ordered` at a concrete response. -/
theorem render_headers_idempotent_ordered_witness :
    renderHeaders ⟨pyOf "text/plain", 200, [(pyOf "X-A", pyOf "1")],
        .bytes [], pyOf "utf-8"⟩ =
      .ok [(pyOf "x-a", pyOf "1"), (pyOf "content-length", pyOf "0"),
        (pyOf "content-type", pyOf "text/plain; charset=utf-8")] ∧
    ∃ mapped,
      renderPairs (TextResponse.headers ⟨pyOf "text/plain", 200,
        [(pyOf "X-A", pyOf "1")], .bytes [], pyOf "utf-8"⟩) = .ok mapped ∧
      mapped.map Prod.fst =
        (TextResponse.headers ⟨pyOf "text/plain", 200,
          [(pyOf "X-A", pyOf "1")], .bytes [], pyOf "utf-8"⟩).map
          (fun kv => pyLower kv.1) ∧
      ([(pyOf "x-a", pyOf "1"), (pyOf "content-length", pyOf "0"),
        (pyOf "content-type",
          pyOf "text/plain; charset=utf-8")] :
        List (PyBytes × PyBytes)).map Prod.fst =
        mapped.map Prod.fst ++ [pyOf "content-length", pyOf "content-type"] :=
  ⟨by decide,
    render_headers_idempotent_ordered.2.1
      ⟨pyOf "text/plain", 200, [(pyOf "X-A", pyOf "1")], .bytes [],
        pyOf "utf-8"⟩
      [(pyOf "x-a", pyOf "1"), (pyOf "content-length", pyOf "0"),
        (pyOf "content-type", pyOf "text/plain; charset=utf-8")]
      (by decide)⟩

/-- Claim C10: when the caller's header mapping itself contains a
content-type entry, the `"; charset=<charset>"` suffix attaches to the
caller's (first) content-type header, and the pipeline-appended
content-type header derived from `media_type` is emitted with no charset
suffix. -/
theorem charset_attaches_to_first_content_type :
    ∀ (r : TextResponse) (pre post : List (PyStr × PyStr)) (k v : PyStr)
      (mapped : List (PyBytes × PyBytes)) (cs clen ctype : PyBytes),
      r.headers = pre ++ (k, v) :: post →
      pyLower k = pyOf "content-type" →
      (∀ p ∈ pre, pyLower p.1 ≠ pyOf "content-type") →
      renderPairs r.headers = .ok mapped →
      encodeLatin1 r.charset = .ok cs →
      encodeLatin1 (pyStrOfNat (pyLen r.body)) = .ok clen →
      encodeLatin1 r.media_type = .ok ctype →
      ∃ pre' post', mapped = pre' ++ (pyOf "content-type", v) :: post' ∧
        renderHeaders r =
          .ok (pre' ++
            (pyOf "content-type", v ++ pyOf "; charset=" ++ cs) ::
            (post' ++ [(pyOf "content-length", clen),
              (pyOf "content-type", ctype)])) := by
  intro r pre post k v mapped cs clen ctype hh hk hpre hmapped hcs hclen hctype
  rw [hh] at hmapped
  obtain ⟨pre', post', hm, hpre', hpost', hnames⟩ := renderPairs_split hmapped
  rw [hk] at hm
  have hpre'ct : ∀ q ∈ pre', q.1 ≠ pyOf "content-type" := by
    intro q hq
    have hmem : q.1 ∈ pre'.map Prod.fst := List.mem_map_of_mem Prod.fst hq
    rw [hnames] at hmem
    obtain ⟨p, hp, hpq⟩ := List.mem_map.mp hmem
    rw [← hpq]
    exact hpre p hp
  refine ⟨pre', post', hm, ?_⟩
  have hbase : baseRenderHeaders r =
      .ok (mapped ++ [(pyOf "content-length", clen),
        (pyOf "content-type", ctype)]) := by
    unfold baseRenderHeaders
    rw [hh, hmapped, hclen, hctype]
  have hrh : renderHeaders r =
      .ok (addCharsetToFirstContentType cs
        (mapped ++ [(pyOf "content-length", clen),
          (pyOf "content-type", ctype)])) := by
    unfold renderHeaders
    rw [hbase, hcs]
  rw [hrh, hm, List.append_assoc, List.cons_append,
    addCharset_first hpre'ct]

/-- Witness for `charset_attaches_to_first_content_type`: a response whose
caller headers already carry a Content-Type entry; the charset suffix
lands on that entry and the appended media-type header stays bare. -/
theorem charset_attaches_to_first_content_type_witness :
    pyLower (pyOf "Content-Type") = pyOf "content-type" ∧
    renderPairs [(pyOf "Content-Type", pyOf "application/json")] =
      .ok [(pyOf "content-type", pyOf "application/json")] ∧
    ∃ pre' post',
      ([(pyOf "content-type", pyOf "application/json")] :
        List (PyBytes × PyBytes)) =
        pre' ++ (pyOf "content-type", pyOf "application/json") :: post' ∧
      renderHeaders ⟨pyOf "text/plain", 200,
          [(pyOf "Content-Type", pyOf "application/json")], .bytes [],
          pyOf "utf-8"⟩ =
        .ok (pre' ++ (pyOf "content-type",
            pyOf "application/json" ++ pyOf "; charset=" ++ pyOf "utf-8") ::
          (post' ++ [(pyOf "content-length", pyOf "0"),
            (pyOf "content-type", pyOf "text/plain")])) :=
  ⟨by decide, by decide,
    charset_attaches_to_first_content_type
      ⟨pyOf "text/plain", 200,
        [(pyOf "Content-Type", pyOf "application/json")], .bytes [],
        pyOf "utf-8"⟩
      [] [] (pyOf "Content-Type") (pyOf "application/json")
      [(pyOf "content-type", pyOf "application/json")]
      (pyOf "utf-8") (pyOf "0") (pyOf "text/plain")
      rfl (by decide) (by simp) (by decide) (by decide) (by decide)
      (by decide)⟩


theorem protoOf_eq {s p : PyStr} {l : List PyStr}
    (h : pySplitDot s = p :: l) : protoOf s = p := by
  unfold protoOf
  rw [h]
  rfl

/-- Claim C1 (code bug): `Connection.__init__` constructs the `ValueError`
for a scope type that differs from the subclass protocol but never raises
it, so constructing e.g. an http connection from a websocket scope
succeeds instead of failing fast. -/
theorem connection_init_swallows_type_error :
    connInit (pyOf "http") (pyOf "websocket") = .ok (pyOf "websocket") ∧
    pyOf "websocket" ≠ pyOf "http" := by
  decide

/-- Claim C2: for a WebSocket connection not in state disconnected,
`receive_request` consumes one message, moves the state to connected on
type suffix "connect", to disconnected on "disconnect" and leaves it
unchanged otherwise, and returns a Request with the type field stripped;
when already disconnected it fails with `InvalidConnectionState` without
touching the receive primitive. -/
theorem ws_receive_request_transitions :
    (∀ (c : WsConn) (m : Message) (rest : List Message) (p t : PyStr),
      c.connection_state ≠ "disconnected" →
      pySplitDot m.type = [p, t] →
      wsReceiveRequest c (m :: rest) =
        some (.ok ⟨m.fields, p, t⟩,
          ⟨if t = pyOf "connect" then "connected"
            else if t = pyOf "disconnect" then "disconnected"
            else c.connection_state⟩, rest))
    ∧ (∀ (c : WsConn) (msgs : List Message),
        c.connection_state = "disconnected" →
        wsReceiveRequest c msgs =
          some (.error (.invalidConnectionState
            (pyOf "Cannot receive a request from a disconnected connection.")),
            c, msgs)) := by
  constructor
  · intro c m rest p t h1 h2
    unfold wsReceiveRequest
    rw [if_neg h1]
    simp only [h2]
  · intro c msgs h
    unfold wsReceiveRequest
    rw [if_pos h]

/-- Witness for `ws_receive_request_transitions` on a connect message
received in the initial state. -/
theorem ws_receive_request_transitions_witness :
    wsInit.connection_state ≠ "disconnected" ∧
    pySplitDot (pyOf "websocket.connect") =
      [pyOf "websocket", pyOf "connect"] ∧
    wsReceiveRequest wsInit [⟨pyOf "websocket.connect", []⟩] =
      some (.ok ⟨[], pyOf "websocket", pyOf "connect"⟩,
        ⟨if pyOf "connect" = pyOf "connect" then "connected"
          else if pyOf "connect" = pyOf "disconnect" then "disconnected"
          else wsInit.connection_state⟩, []) :=
  ⟨by decide, by decide,
    ws_receive_request_transitions.1 wsInit ⟨pyOf "websocket.connect", []⟩
      [] (pyOf "websocket") (pyOf "connect") (by decide) (by decide)⟩

/-- Counterexample to claim C3 as stated: `accept_connection` assigns the
state `"accepted"`, which is outside the claimed three-value set. -/
theorem ws_accept_leaves_three_value_set :
    (wsAcceptConnection wsInit none []).2.connection_state = "accepted" ∧
    "accepted" ∉ (["connecting", "connected", "disconnected"] :
      List String) := by
  decide

theorem wsStep_state (c : WsConn) (ms : List Message) (op : WsOp) :
    (wsStep (c, ms) op).1.connection_state = c.connection_state ∨
    (wsStep (c, ms) op).1.connection_state ∈
      (["connected", "disconnected", "accepted", "closed"] :
        List String) := by
  cases op with
  | accept sub hs => right; simp [wsStep, wsAcceptConnection]
  | close code => right; simp [wsStep, wsCloseConnection]
  | receiveReq =>
      by_cases hd : c.connection_state = "disconnected"
      · left; simp [wsStep, wsReceiveRequest, hd]
      · cases ms with
        | nil => left; simp [wsStep, wsReceiveRequest, hd]
        | cons m rest =>
            cases hsp : pySplitDot m.type with
            | nil => left; simp [wsStep, wsReceiveRequest, hd, hsp]
            | cons p ptail =>
                cases ptail with
                | nil => left; simp [wsStep, wsReceiveRequest, hd, hsp]
                | cons t ttail =>
                    cases ttail with
                    | nil =>
                        by_cases hc : t = pyOf "connect"
                        · right
                          simp [wsStep, wsReceiveRequest, hd, hsp, hc]
                        · by_cases hdc : t = pyOf "disconnect"
                          · right
                            simp [wsStep, wsReceiveRequest, hd, hsp, hc, hdc]
                            decide
                          · left
                            simp [wsStep, wsReceiveRequest, hd, hsp, hc, hdc]
                    | cons x xs =>
                        left; simp [wsStep, wsReceiveRequest, hd, hsp]

theorem ws_run_state_mem :
    ∀ (ops : List WsOp) (cm : WsConn × List Message),
      cm.1.connection_state ∈
        (["connecting", "connected", "disconnected", "accepted", "closed"] :
          List String) →
      (wsRun cm ops).1.connection_state ∈
        (["connecting", "connected", "disconnected", "accepted", "closed"] :
          List String) := by
  intro ops
  induction ops with
  | nil => intro cm h; exact h
  | cons op rest ih =>
      intro cm h
      refine ih (wsStep cm op) ?_
      obtain ⟨c, ms⟩ := cm
      rcases wsStep_state c ms op with he | hm
      · rw [he]; exact h
      · simp only [List.mem_cons] at hm ⊢
        tauto

/-- Claim C3 amended: `connection_state` always stays within the five
values {connecting, connected, disconnected, accepted, closed}: it is
initialised to connecting, `receive_request` moves it only to connected
or disconnected (or leaves it), `accept_connection` sets accepted and
`close_connection` sets closed. -/
theorem ws_connection_state_five_values :
    ∀ (ops : List WsOp) (msgs : List Message),
      (wsRun (wsInit, msgs) ops).1.connection_state ∈
        (["connecting", "connected", "disconnected", "accepted", "closed"] :
          List String) :=
  fun ops msgs => ws_run_state_mem ops (wsInit, msgs) (List.mem_cons_self _ _)


/-- Counterexample to claim C4 as stated: the message type
`"http.response.start"` has a stripped type other than `"request"`, but
the call fails with the tuple-unpacking `ValueError`, not with
`TypeMismatch`. -/
theorem http_receive_request_three_part_type :
    httpReceiveRequest [⟨pyOf "http.response.start", []⟩] =
      some (.error (.valueError (pyOf "values to unpack (expected 2)")),
        []) ∧
    raisesTypeMismatch
      (httpReceiveRequest [⟨pyOf "http.response.start", []⟩]) = false := by
  decide

/-- Claim C4 amended: for a received http message whose type splits into
exactly two dot-separated parts, stripped type `"request"` yields the
Request with the type field removed, and any other stripped type fails
with `TypeMismatch` naming it; a type that does not split into exactly
two parts fails the tuple unpacking with `ValueError` instead. -/
theorem http_receive_request_types :
    (∀ (m : Message) (rest : List Message) (p : PyStr),
      pySplitDot m.type = [p, pyOf "request"] → p = pyOf "http" →
      httpReceiveRequest (m :: rest) =
        some (.ok ⟨m.fields, p, pyOf "request"⟩, rest))
    ∧ (∀ (m : Message) (rest : List Message) (p t : PyStr),
      pySplitDot m.type = [p, t] → p = pyOf "http" → t ≠ pyOf "request" →
      httpReceiveRequest (m :: rest) =
        some (.error (.typeMismatch (pyOf "Request type (" ++ t ++
          pyOf ") does not match the expected type (request).")), rest))
    ∧ (∀ (m : Message) (rest : List Message),
      (pySplitDot m.type).length ≠ 2 → protoOf m.type = pyOf "http" →
      httpReceiveRequest (m :: rest) =
        some (.error (.valueError (pyOf "values to unpack (expected 2)")),
          rest)) := by
  refine ⟨?_, ?_, ?_⟩
  · intro m rest p hsp hp
    have hproto : protoOf m.type = pyOf "http" := (protoOf_eq hsp).trans hp
    have hcr : connReceive (pyOf "http") (m :: rest) = some (.ok m, rest) := by
      simp only [connReceive]
      rw [if_neg (not_not_intro hproto)]
    simp [httpReceiveRequest, hcr, hsp]
  · intro m rest p t hsp hp ht
    have hproto : protoOf m.type = pyOf "http" := (protoOf_eq hsp).trans hp
    have hcr : connReceive (pyOf "http") (m :: rest) = some (.ok m, rest) := by
      simp only [connReceive]
      rw [if_neg (not_not_intro hproto)]
    simp [httpReceiveRequest, hcr, hsp, ht]
  · intro m rest hlen hproto
    have hcr : connReceive (pyOf "http") (m :: rest) = some (.ok m, rest) := by
      simp only [connReceive]
      rw [if_neg (not_not_intro hproto)]
    rcases hsp : pySplitDot m.type with _ | ⟨p, _ | ⟨t, _ | ⟨x, xs⟩⟩⟩
    · simp [httpReceiveRequest, hcr, hsp]
    · simp [httpReceiveRequest, hcr, hsp]
    · rw [hsp] at hlen
      exact absurd rfl hlen
    · simp [httpReceiveRequest, hcr, hsp]

/-- Witness for `http_receive_request_types` on a plain `http.request`
message. -/
theorem http_receive_request_types_witness :
    pySplitDot (pyOf "http.request") = [pyOf "http", pyOf "request"] ∧
    httpReceiveRequest [⟨pyOf "http.request",
        [(pyOf "body", .bytes []), (pyOf "more_body", .bool false)]⟩] =
      some (.ok ⟨[(pyOf "body", .bytes []), (pyOf "more_body", .bool false)],
        pyOf "http", pyOf "request"⟩, []) :=
  ⟨by decide,
    http_receive_request_types.1
      ⟨pyOf "http.request",
        [(pyOf "body", .bytes []), (pyOf "more_body", .bool false)]⟩
      [] (pyOf "http") (by decide) rfl⟩

/-- Counterexample to claim C5 as stated: a WebSocket connection returns
a message with the foreign protocol prefix `"foo"` as a Request instead
of failing with `ProtocolMismatch`. -/
theorem ws_receive_foreign_protocol :
    wsReceiveRequest wsInit [⟨pyOf "foo.bar", []⟩] =
      some (.ok ⟨[], pyOf "foo", pyOf "bar"⟩, ⟨"connecting"⟩, []) ∧
    pyOf "foo" ≠ pyOf "websocket" := by
  decide

/-- Claim C5 amended: the http side (through the spec-modelled
`Connection.receive`) validates the protocol prefix — a Request returned
by `HttpConnection.receive_request` always carries protocol `"http"`,
and a foreign prefix fails with `ProtocolMismatch` naming both
protocols; `WebSocketConnection.receive_request` pulls from the raw
primitive with no protocol validation and returns foreign-prefix
messages as Requests. -/
theorem receive_protocol_validation :
    (∀ (msgs rest : List Message) (req : Request),
      httpReceiveRequest msgs = some (.ok req, rest) →
      req.protocol = pyOf "http")
    ∧ (∀ (m : Message) (rest : List Message),
      protoOf m.type ≠ pyOf "http" →
      httpReceiveRequest (m :: rest) =
        some (.error (.protocolMismatch (pyOf "Request protocol (" ++
          protoOf m.type ++
          pyOf ") does not match this connection protocol (" ++
          pyOf "http" ++ pyOf ").")), rest))
    ∧ wsReceiveRequest wsInit [⟨pyOf "other.receive", []⟩] =
      some (.ok ⟨[], pyOf "other", pyOf "receive"⟩, ⟨"connecting"⟩, []) := by
  refine ⟨?_, ?_, by decide⟩
  · intro msgs rest req h
    cases msgs with
    | nil => simp [httpReceiveRequest, connReceive] at h
    | cons m tl =>
        by_cases hpr : protoOf m.type = pyOf "http"
        · have hcr : connReceive (pyOf "http") (m :: tl) =
              some (.ok m, tl) := by
            simp only [connReceive]
            rw [if_neg (not_not_intro hpr)]
          rcases hsp : pySplitDot m.type with _ | ⟨p, _ | ⟨t, _ | ⟨x, xs⟩⟩⟩
          · simp [httpReceiveRequest, hcr, hsp] at h
          · simp [httpReceiveRequest, hcr, hsp] at h
          · by_cases ht : t = pyOf "request"
            · simp [httpReceiveRequest, hcr, hsp, ht] at h
              obtain ⟨h1, h2⟩ := h
              rw [← h1]
              exact (protoOf_eq hsp).symm.trans hpr
            · simp [httpReceiveRequest, hcr, hsp, ht] at h
          · simp [httpReceiveRequest, hcr, hsp] at h
        · simp [httpReceiveRequest, connReceive, hpr] at h
  · intro m rest hpr
    have hcr : connReceive (pyOf "http") (m :: rest) =
        some (.error (.protocolMismatch (pyOf "Request protocol (" ++
          protoOf m.type ++
          pyOf ") does not match this connection protocol (" ++
          pyOf "http" ++ pyOf ").")), rest) := by
      simp only [connReceive]
      rw [if_pos hpr]
    simp [httpReceiveRequest, hcr]

/-- Witness for `receive_protocol_validation` on a websocket-prefixed
message handed to an http connection. -/
theorem receive_protocol_validation_witness :
    protoOf (pyOf "websocket.connect") ≠ pyOf "http" ∧
    httpReceiveRequest [⟨pyOf "websocket.connect", []⟩] =
      some (.error (.protocolMismatch (pyOf "Request protocol (" ++
        protoOf (pyOf "websocket.connect") ++
        pyOf ") does not match this connection protocol (" ++
        pyOf "http" ++ pyOf ").")), []) :=
  ⟨by decide,
    receive_protocol_validation.2.1 ⟨pyOf "websocket.connect", []⟩ []
      (by decide)⟩


theorem findRoute_none :
    ∀ (routes : List AppRoute) (scopePath : String) (i : Nat),
      (∀ r ∈ routes, pathMatches r.path scopePath = false) →
      findRoute scopePath routes i = none := by
  intro routes
  induction routes with
  | nil => intro _ _ _; rfl
  | cons r rest ih =>
      intro sp i h
      simp only [findRoute]
      rw [if_neg (by simp [h r (List.mem_cons_self r rest)])]
      exact ih sp (i + 1) fun q hq => h q (List.mem_cons_of_mem r hq)

/-- Claim C6: for an HTTP scope whose path matches no route, the
application sends the plain-text 404 Not Found response (a start message
with status 404 followed by the final body message) and invokes no route
endpoint. -/
theorem no_route_match_sends_404 :
    ∀ (routes : List AppRoute) (scopePath : String),
      (∀ r ∈ routes, pathMatches r.path scopePath = false) →
      xiaoCall routes scopePath =
        .ok ([.start 404 [(pyOf "content-length", pyOf "9"),
            (pyOf "content-type", pyOf "text/plain; charset=utf-8")],
          .body (pyOf "Not Found") false], []) := by
  intro routes sp h
  have hfr : findRoute sp routes 0 = none := findRoute_none routes sp 0 h
  unfold xiaoCall
  rw [hfr]
  decide

/-- Witness for `no_route_match_sends_404` on the spec's example router
with routes "/" and "/create" and an unmatched path "/unknown". -/
theorem no_route_match_sends_404_witness :
    (∀ r ∈ ([⟨"/", [], none⟩, ⟨"/create", [], none⟩] : List AppRoute),
      pathMatches r.path "/unknown" = false) ∧
    xiaoCall [⟨"/", [], none⟩, ⟨"/create", [], none⟩] "/unknown" =
      .ok ([.start 404 [(pyOf "content-length", pyOf "9"),
          (pyOf "content-type", pyOf "text/plain; charset=utf-8")],
        .body (pyOf "Not Found") false], []) :=
  ⟨by decide,
    no_route_match_sends_404 [⟨"/", [], none⟩, ⟨"/create", [], none⟩]
      "/unknown" (by decide)⟩

/-- Claim C7: when receiving the request or running the endpoint raises,
the HTTP route sends the 500 Internal Server Error body response and
re-raises the exception, and the WebSocket route sends a close response
with code 1011 and re-raises; neither call returns normally after the
failure. -/
theorem routes_send_terminal_response_then_reraise :
    (∀ (msgs rest : List Message) (e : Err) (sends : List OutMsg)
      (eraise : Option Err),
      httpReceiveRequest msgs = some (.error e, rest) →
      httpRouteCall (pyOf "http") true msgs sends eraise =
        some (bodyResponseMessages 500 [] (pyOf "Internal Server Error"),
          some e, rest))
    ∧ (∀ (msgs rest : List Message) (req : Request) (sends : List OutMsg)
      (e : Err),
      httpReceiveRequest msgs = some (.ok req, rest) →
      httpRouteCall (pyOf "http") true msgs sends (some e) =
        some (sends ++
          bodyResponseMessages 500 [] (pyOf "Internal Server Error"),
          some e, rest))
    ∧ (∀ (c c' : WsConn) (msgs rest : List Message) (e : Err)
      (sends : List OutMsg) (eraise : Option Err) (rf : PyStr → Bool),
      wsReceiveRequest c msgs = some (.error e, c', rest) →
      wsRouteCall (pyOf "websocket") rf c msgs sends eraise =
        some ([.wsClose 1011], some e, ⟨"disconnected"⟩, rest))
    ∧ (∀ (c c' : WsConn) (msgs rest : List Message) (req : Request)
      (sends : List OutMsg) (e : Err) (rf : PyStr → Bool),
      wsReceiveRequest c msgs = some (.ok req, c', rest) →
      rf req.type = true →
      wsRouteCall (pyOf "websocket") rf c msgs sends (some e) =
        some (sends ++ [.wsClose 1011], some e, ⟨"disconnected"⟩, rest)) := by
  have h500 : httpSendBodyResponse 500 [] (pyOf "Internal Server Error") =
      .ok (bodyResponseMessages 500 [] (pyOf "Internal Server Error")) := by
    decide
  refine ⟨?_, ?_, ?_, ?_⟩
  · intro msgs rest e sends eraise h
    simp [httpRouteCall, h, h500]
  · intro msgs rest req sends e h
    simp [httpRouteCall, h, h500]
  · intro c c' msgs rest e sends eraise rf h
    simp [wsRouteCall, h, wsSendResponse, wsRenderMessage]
  · intro c c' msgs rest req sends e rf h hres
    simp [wsRouteCall, h, hres, wsSendResponse, wsRenderMessage]

/-- Witness for `routes_send_terminal_response_then_reraise`: an
`http.disconnect` message makes `receive_request` raise `TypeMismatch`,
after which the route sends the 500 response and re-raises it. -/
theorem routes_send_terminal_response_then_reraise_witness :
    httpReceiveRequest [⟨pyOf "http.disconnect", []⟩] =
      some (.error (.typeMismatch (pyOf
        "Request type (disconnect) does not match the expected type (request).")),
        []) ∧
    httpRouteCall (pyOf "http") true [⟨pyOf "http.disconnect", []⟩] []
        none =
      some (bodyResponseMessages 500 [] (pyOf "Internal Server Error"),
        some (.typeMismatch (pyOf
          "Request type (disconnect) does not match the expected type (request).")),
        []) :=
  ⟨by decide,
    routes_send_terminal_response_then_reraise.1
      [⟨pyOf "http.disconnect", []⟩] []
      (.typeMismatch (pyOf
        "Request type (disconnect) does not match the expected type (request)."))
      [] none (by decide)⟩

end XiaoAsgi
